import Mathlib

/-!
Shallow embedding of the geni_wrapper Python SDK (src/geni_wrapper/sdk.py)
together with its event bus (class GeniEvent) and the public operations of
class GeniSDK: the constructor, get_status, connect, logout and api.

Modelling conventions:
  - Python None / empty-string truthiness is modelled explicitly
    (pyTruthy below), since the source guards on `if self._access_token:`
    and `if not app_id:`.
  - Stateful methods become pure functions from an SDKState plus an
    explicit environment outcome (the decoded HTTP response, or a raised
    transport error) to a structure carrying the new state, the returned
    value, the callback deliveries, the auth:statusChange trigger calls
    and the exception, if any, that escapes the method.
  - The loopback HTTP listener of connect is modelled including the
    dispatch rule of http.server.BaseHTTPRequestHandler: an inbound
    request with command C runs the handler method named "do_" ++ C when
    the handler class defines it, and otherwise answers 501 without
    running any handler body. The OAuthHandler class in the source
    defines exactly one handler method, named "do_get".
-/

namespace GeniWrapper

/-- Python truthiness of an optional string: None and the empty string are
falsy, every other string is truthy. -/
def pyTruthy : Option String → Bool
  | none => false
  | some s => s != ""

/-- Association list standing for a Python dict with string keys and
string values; keys are unique in every dict a caller can build. -/
abbrev Params := List (String × String)

/-- First value bound to a key, as dict lookup. -/
def dictGet (p : Params) (k : String) : Option String :=
  match p with
  | [] => none
  | kv :: t => if kv.1 == k then some kv.2 else dictGet t k

/-- Python dict.pop with a default: the popped value, when present, and
the dict with the key removed. -/
def dictPop (p : Params) (k : String) : Option String × Params :=
  (dictGet p k, p.filter (fun kv => kv.1 != k))

/-- Python dict item assignment: replaces the value at the key when
present, otherwise appends the new binding. -/
def dictSet (p : Params) (k v : String) : Params :=
  if p.any (fun kv => kv.1 == k) then
    p.map (fun kv => if kv.1 == k then (k, v) else kv)
  else p ++ [(k, v)]

/-- str.split on a one-character separator, over the character list of
the string: splitting the empty text yields one empty field. -/
def splitOnChar (c : Char) : List Char → List (List Char)
  | [] => [[]]
  | x :: xs =>
    let r := splitOnChar c xs
    if x == c then [] :: r
    else
      match r with
      | [] => [[x]]
      | h :: t => (x :: h) :: t

/-- str.split with maxsplit one: the text before the first occurrence of
the separator and the text after it, or nothing when the separator is
absent. -/
def breakFirst (c : Char) : List Char → Option (List Char × List Char)
  | [] => none
  | x :: xs =>
    if x == c then some ([], xs)
    else (breakFirst c xs).map (fun pr => (x :: pr.1, pr.2))

/-- urllib.parse.urlparse(path).query: the characters after the first
question mark, with any fragment after a hash sign removed first; empty
when the path has no question mark. -/
def urlQuery (p : String) : List Char :=
  let noFrag := ((breakFirst '#' p.toList).map (fun pr => pr.1)).getD p.toList
  ((breakFirst '?' noFrag).map (fun pr => pr.2)).getD []

/-- urllib.parse.parse_qs restricted to first occurrences: fields split
on the ampersand, each field split once on the equals sign; empty
fields, fields with no equals sign and fields with a blank value are
dropped, because parse_qs defaults to keep_blank_values=False. Percent
decoding is not modelled; the claims only involve undecoded names and
values. -/
def parseQS (q : List Char) : List (String × String) :=
  (splitOnChar '&' q).filterMap (fun field =>
    match field with
    | [] => none
    | _ =>
      match breakFirst '=' field with
      | none => none
      | some (k, v) =>
        if v.isEmpty then none else some (k.asString, v.asString))

/-- Result value produced by one connect handshake: the oauth_response
dict set by the handler, or the default dict that connect reads with
getattr when the handler never ran. -/
inductive OAuthResp
  | authorized (access_token : String)
  | unknownErr
  | unknownDefault
deriving DecidableEq, Repr

/-- Status string carried by an OAuthResp dict. -/
def OAuthResp.statusOf : OAuthResp → String
  | .authorized _ => "authorized"
  | _ => "unknown"

/-- Body of OAuthHandler.do_get in the source: parses the query string of
the request path; when it holds an access_token parameter the response is
authorized with its first value, otherwise the response is the unknown
dict with the cancellation error message. -/
def do_get ( path : String) : OAuthResp :=
  let query := parseQS (urlQuery path)
  match dictGet query "access_token" with
  | some t => OAuthResp.authorized t
  | none => OAuthResp.unknownErr

/-- Handler methods the OAuthHandler class defines. The source names its
method do_get, in lower case. -/
def oauthHandlerMethods : List String := ["do_get"]

/-- One inbound HTTP request to the loopback listener. -/
structure HttpRequest where
  command : String
  path : String
deriving DecidableEq, Repr

/-- BaseHTTPRequestHandler.handle_one_request dispatch: the method name
is the string do_ followed by the request command, looked up with
hasattr; when the class lacks it the server answers 501 Unsupported
method and no handler body runs, so oauth_response is never set. -/
def handleOneRequest (req : HttpRequest) : Option OAuthResp :=
  if oauthHandlerMethods.contains ("do_" ++ req.command) then
    some (do_get req.path)
  else none

/-- State of one GeniSDK instance: the constructor parameters it keeps
and the mutable session fields access_token and status. -/
structure SDKState where
  app_id : Option String
  host : String
  cookies : Bool
  logging : Bool
  access_token : Option String
  status : String
deriving DecidableEq, Repr

/-- GeniSDK constructor: stores the parameters, starts with no token and
status unknown, and raises ValueError when the application id is falsy. -/
def geniInit (app_id : Option String) (host : String)
    (cookies : Bool) (logging : Bool) : Except String SDKState :=
  if pyTruthy app_id then
    Except.ok { app_id := app_id, host := host, cookies := cookies,
                logging := logging, access_token := none, status := "unknown" }
  else Except.error "ValueError: Geni Python SDK requires an Application ID"

/-- GeniSDK._set_status: updates the status only when it differs from the
current one, and on a change triggers the auth:statusChange event once.
The second component lists the trigger calls the method makes, each as an
event name paired with its payload. -/
def set_status (st : SDKState) (s : String) : SDKState × List (String × String) :=
  if st.status != s then ({ st with status := s }, [("auth:statusChange", s)])
  else (st, [])

/-- Outcome of GeniSDK.connect: the final state, the auth:statusChange
trigger calls, the dicts delivered to the callback when one is given,
whether the loopback listener was bound and the browser opened, and the
exception that escapes, if any. -/
structure ConnectOut where
  state : SDKState
  fired : List (String × String)
  cbCalls : List OAuthResp
  boundListener : Bool
  openedBrowser : Bool
  raised : Option String
deriving DecidableEq, Repr

/-- GeniSDK.connect: raises ValueError when the app id is falsy; when a
token is already held, delivers the authorized dict with that token and
returns without binding a listener, opening a browser or touching the
state; otherwise binds the one-shot listener, opens the browser, handles
the single inbound request, reads oauth_response with a default of the
bare unknown dict, stores the token on an authorized response, routes the
status through set_status and delivers the response to the callback. -/
def connect (st : SDKState) (req : HttpRequest) (cb : Bool) : ConnectOut :=
  if !(pyTruthy st.app_id) then
    { state := st, fired := [], cbCalls := [], boundListener := false,
      openedBrowser := false,
      raised := some "ValueError: connect() called without an app id" }
  else if pyTruthy st.access_token then
    { state := st, fired := [],
      cbCalls := if cb then [OAuthResp.authorized (st.access_token.getD "")] else [],
      boundListener := false, openedBrowser := false, raised := none }
  else
    let resp := (handleOneRequest req).getD OAuthResp.unknownDefault
    let st1 := match resp with
      | OAuthResp.authorized t => { st with access_token := some t }
      | _ => st
    let se := set_status st1 resp.statusOf
    { state := se.1, fired := se.2, cbCalls := if cb then [resp] else [],
      boundListener := true, openedBrowser := true, raised := none }

/-- Outcome of the deauthorization HTTP GET inside logout. -/
inductive NetCall
  | ok
  | failed (msg : String)
deriving DecidableEq, Repr

/-- Outcome of GeniSDK.logout. -/
structure LogoutOut where
  state : SDKState
  fired : List (String × String)
  cbCalled : Bool
  raised : Option String
deriving DecidableEq, Repr

/-- GeniSDK.logout: raises ValueError when the app id is falsy; otherwise
performs the deauthorization request inside a try whose finally block
clears the token, routes unknown through set_status and invokes the
callback; an exception from the request is re-raised after the finally
block runs, so the local reset happens on both outcomes. -/
def logout (st : SDKState) (net : NetCall) (cb : Bool) : LogoutOut :=
  if !(pyTruthy st.app_id) then
    { state := st, fired := [], cbCalled := false,
      raised := some "ValueError: logout() called without an app id" }
  else
    let st1 := { st with access_token := none }
    let se := set_status st1 "unknown"
    { state := se.1, fired := se.2, cbCalled := cb,
      raised := match net with | NetCall.ok => none | NetCall.failed m => some m }

/-- Value bound to the error key of a decoded JSON response body, as the
api method observes it: a dict with an optional type entry and a flag for
further entries, or a non-dict value with its Python truthiness. A dict
with a type entry is never empty, so its truthiness is derived. -/
inductive PyErrVal
  | pdict (etype : Option String) (hasOtherKeys : Bool)
  | nonDict (truthy : Bool)
deriving DecidableEq, Repr

/-- Python truthiness of an error value: a dict is truthy when nonempty,
a non-dict value carries its own truthiness. -/
def PyErrVal.pyTruthyVal : PyErrVal → Bool
  | .pdict etype hasOtherKeys => etype.isSome || hasOtherKeys
  | .nonDict t => t

/-- Decoded JSON body of an api response, restricted to the one key the
method inspects: the optional error entry. -/
structure ApiData where
  errField : Option PyErrVal
deriving DecidableEq, Repr

/-- Outcome of the network layer of one api call: requests.request or
response.json raised, or a decoded body came back. -/
inductive NetOutcome
  | fail (msg : String)
  | ok (d : ApiData)
deriving DecidableEq, Repr

/-- Value an api call returns and delivers to its callback: the decoded
body, or the synthesized dict holding only an error string. -/
inductive ApiResult
  | data (d : ApiData)
  | errorStr (msg : String)
deriving DecidableEq, Repr

/-- Truthiness of result.get applied to the error key, as get_status
tests it: absent gives None which is falsy; a synthesized error string is
truthy when nonempty. -/
def ApiResult.errTruthy : ApiResult → Bool
  | .data d => match d.errField with
    | none => false
    | some v => v.pyTruthyVal
  | .errorStr m => m != ""

/-- Message of the AttributeError raised inside the try block when the
error value is not a dict and get is called on it. -/
def attrErrorMsg : String := "AttributeError: value has no attribute get"

/-- Parameter dict of an api call after the in-place mutations that
precede the network request: method popped, and the held token written
under the access_token key. -/
def apiFinalParams (st : SDKState) (p : Params) : Params :=
  let p1 := (dictPop p "method").2
  if pyTruthy st.access_token then
    dictSet p1 "access_token" (st.access_token.getD "")
  else p1

/-- Dict object the caller passed to api, as it stands after the call:
None stays None, an empty dict is replaced by a fresh one inside api and
is never mutated, a nonempty dict is mutated in place. -/
def apiCallerParams (st : SDKState) (params0 : Option Params) : Option Params :=
  match params0 with
  | none => none
  | some p => if p.isEmpty then some p else some (apiFinalParams st p)

/-- Outcome of GeniSDK.api. -/
structure ApiOut where
  state : SDKState
  result : ApiResult
  fired : List (String × String)
  cbCalls : List ApiResult
  callerParams : Option Params
deriving DecidableEq, Repr

/-- Body of the try block of api: the network call and decode, the error
inspection with its possible token clearing and status demotion, and the
callback delivery; a network or decode failure and the AttributeError
from calling get on a non-dict error value escape as exceptions. -/
def apiTry (st : SDKState) (net : NetOutcome) (cb : Bool) :
    Except String (SDKState × ApiData × List (String × String) × List ApiResult) :=
  match net with
  | NetOutcome.fail msg => Except.error msg
  | NetOutcome.ok d =>
    match d.errField with
    | none => Except.ok (st, d, [], if cb then [ApiResult.data d] else [])
    | some (PyErrVal.pdict etype _) =>
      if etype == some "OAuthException" then
        let st1 := { st with access_token := none }
        let se := set_status st1 "unauthorized"
        Except.ok (se.1, d, se.2, if cb then [ApiResult.data d] else [])
      else Except.ok (st, d, [], if cb then [ApiResult.data d] else [])
    | some (PyErrVal.nonDict _) => Except.error attrErrorMsg

/-- GeniSDK.api: pops method from the params, writes the held token into
them, runs the try body, and converts every exception the body raises
into the synthesized error dict, delivered to the callback and returned
in place of the decoded body. Nothing is raised past the api boundary. -/
def api (st : SDKState) ( path : String) (params0 : Option Params)
    (net : NetOutcome) (cb : Bool) : ApiOut :=
  let callerParams := apiCallerParams st params0
  match apiTry st net cb with
  | Except.ok (st1, d, fired, cbCalls) =>
    { state := st1, result := ApiResult.data d, fired := fired,
      cbCalls := cbCalls, callerParams := callerParams }
  | Except.error msg =>
    { state := st, result := ApiResult.errorStr msg, fired := [],
      cbCalls := if cb then [ApiResult.errorStr msg] else [],
      callerParams := callerParams }

/-- Outcome of GeniSDK.get_status. -/
structure StatusOut where
  state : SDKState
  status : String
  access_token : Option String
  fired : List (String × String)
  cbCalls : List (String × Option String)
deriving DecidableEq, Repr

/-- GeniSDK.get_status: with a truthy token it makes the test api call to
the user endpoint; when that result has no truthy error it reports
authorized with the token as it stands after the test call, otherwise it
clears the token and reports unknown; with no truthy token it reports
unknown directly. The reported status is routed through set_status and
the response dict is delivered to the callback when one is given. -/
def get_status (st : SDKState) (net : NetOutcome) (cb : Bool) : StatusOut :=
  if pyTruthy st.access_token then
    let a := api st "/user" none net false
    if !(a.result.errTruthy) then
      let se := set_status a.state "authorized"
      { state := se.1, status := "authorized",
        access_token := a.state.access_token, fired := a.fired ++ se.2,
        cbCalls := if cb then [("authorized", a.state.access_token)] else [] }
    else
      let st1 := { a.state with access_token := none }
      let se := set_status st1 "unknown"
      { state := se.1, status := "unknown", access_token := none,
        fired := a.fired ++ se.2,
        cbCalls := if cb then [("unknown", none)] else [] }
  else
    let se := set_status st "unknown"
    { state := se.1, status := "unknown", access_token := none,
      fired := se.2, cbCalls := if cb then [("unknown", none)] else [] }

/-- Subscriber registry of class GeniEvent: event names mapped to their
ordered callback lists. Callbacks are identified by handles compared the
way Python compares functions, by identity. -/
abbrev Events := List (String × List Nat)

/-- Lookup of the subscriber list of an event. -/
def eventsGet (evs : Events) (e : String) : Option (List Nat) :=
  (evs.find? (fun kv => kv.1 == e)).map (fun kv => kv.2)

/-- GeniEvent.bind: appends the callback to the list of the event,
creating the list when absent. -/
def bind (evs : Events) (e : String) (c : Nat) : Events :=
  if evs.any (fun kv => kv.1 == e) then
    evs.map (fun kv => if kv.1 == e then (kv.1, kv.2 ++ [c]) else kv)
  else evs ++ [(e, [c])]

/-- Python list.remove: deletes the first occurrence of the element, or
raises ValueError when the element is absent. -/
def listRemove (l : List Nat) (c : Nat) : Except String (List Nat) :=
  match l with
  | [] => Except.error "ValueError: list.remove(x): x not in list"
  | x :: xs =>
    if x == c then Except.ok xs
    else (listRemove xs c).map (fun r => x :: r)

/-- GeniEvent.unbind: returns silently when the event has no subscriber
list; with no callback argument it deletes the whole list; with a
callback it delegates to list.remove, whose ValueError escapes when the
callback is not subscribed. -/
def unbind (evs : Events) (e : String) (c : Option Nat) : Except String Events :=
  match eventsGet evs e with
  | none => Except.ok evs
  | some l =>
    match c with
    | none => Except.ok (evs.filter (fun kv => kv.1 != e))
    | some cb =>
      (listRemove l cb).map (fun r =>
        evs.map (fun kv => if kv.1 == e then (kv.1, r) else kv))

/-- GeniEvent.trigger: the callbacks invoked, in subscription order; no
subscriber list means no calls. -/
def trigger (evs : Events) (e : String) : List Nat :=
  (eventsGet evs e).getD []

/-- One public SDK operation together with the environment outcome that
drives it: the inbound loopback request for connect, the network outcome
for get_status, logout and api. -/
inductive SDKOp
  | opConnect (req : HttpRequest)
  | opGetStatus (net : NetOutcome)
  | opLogout (net : NetCall)
  | opApi (p : String) (params0 : Option Params) (net : NetOutcome)
deriving Repr

/-- State reached after one public operation. -/
def step (st : SDKState) : SDKOp → SDKState
  | SDKOp.opConnect req => (connect st req false).state
  | SDKOp.opGetStatus net => (get_status st net false).state
  | SDKOp.opLogout net => (logout st net false).state
  | SDKOp.opApi p params0 net => (api st p params0 net false).state

/-- State reached after a sequence of public operations. -/
def runOps (st : SDKState) (ops : List SDKOp) : SDKState :=
  ops.foldl step st

/-- Session invariant of the spec: the stored access token is non-empty
only when the status is authorized. -/
def sessionInvariant (st : SDKState) : Prop :=
  pyTruthy st.access_token = true → st.status = "authorized"

instance (st : SDKState) : Decidable (sessionInvariant st) := by
  unfold sessionInvariant; infer_instance

/-- Client as built by the constructor with application id A and the
default parameters. -/
def freshState : SDKState :=
  { app_id := some "A", host := "https://www.geni.com", cookies := false,
    logging := false, access_token := none, status := "unknown" }

/-- Client holding the access token T after a completed handshake. -/
def authState : SDKState :=
  { freshState with access_token := some "T", status := "authorized" }

/-- Decoded response body whose error entry is a dict declaring type
OAuthException and nothing else. -/
def oauthErrData : ApiData :=
  { errField := some (PyErrVal.pdict (some "OAuthException") false) }

/-- The first component of set_status keeps the access token. -/
theorem set_status_fst_access_token (st : SDKState) (s : String) :
    (set_status st s).1.access_token = st.access_token := by
  unfold set_status; split <;> rfl

/-- The first component of set_status carries the requested status. -/
theorem set_status_fst_status (st : SDKState) (s : String) :
    (set_status st s).1.status = s := by
  unfold set_status
  split
  · rfl
  · next h => simpa using h

/-- The caller params component of api does not depend on the network
outcome. -/
theorem api_callerParams_eq (st : SDKState) (p : String) (params0 : Option Params)
    (net : NetOutcome) (cb : Bool) :
    (api st p params0 net cb).callerParams = apiCallerParams st params0 := by
  unfold api
  split <;> rfl

/-- list.remove raises ValueError exactly when the element is absent. -/
theorem listRemove_not_mem (l : List Nat) (c : Nat) (h : c ∉ l) :
    listRemove l c = Except.error "ValueError: list.remove(x): x not in list" := by
  induction l with
  | nil => rfl
  | cons x xs ih =>
    unfold listRemove
    have hx : ¬(x = c) := by
      intro hxc; exact h (hxc ▸ List.mem_cons_self x xs)
    simp only [beq_iff_eq, hx, if_false]
    rw [ih (fun hm => h (List.mem_cons_of_mem x hm))]
    rfl

/-- C1: on a fresh client, an inbound loopback GET request carrying
access_token=XYZ does not produce the authorized result the claim
states, because BaseHTTPRequestHandler dispatches only a method named
do_GET and the handler class defines do_get: no handler body runs,
oauth_response is never set, connect falls back to the bare unknown dict
with no error entry and stores no token. The last conjunct shows the
handler body itself, had it been dispatched, would have produced exactly
the claimed authorized result, which marks the lower-case method name as
the slip. -/
theorem connect_oauth_token_never_captured :
    handleOneRequest { command := "GET", path := "/?access_token=XYZ" } = none ∧
    (connect freshState { command := "GET", path := "/?access_token=XYZ" } true).cbCalls
      = [OAuthResp.unknownDefault] ∧
    (connect freshState { command := "GET", path := "/?access_token=XYZ" } true).state.access_token
      = none ∧
    (connect freshState { command := "GET", path := "/?error=denied" } true).cbCalls
      = [OAuthResp.unknownDefault] ∧
    do_get "/?access_token=XYZ" = OAuthResp.authorized "XYZ" := by
  refine ⟨rfl, by decide, by decide, by decide, by decide⟩

/-- C5: unbind on an event that has a subscriber list, with a callback
that is not in that list, does not fail silently: list.remove raises
ValueError. Concrete counterexample with one subscriber 1 and the
foreign callback 2. -/
theorem unbind_missing_callback_raises :
    unbind [("e", [1])] "e" (some 2)
      = Except.error "ValueError: list.remove(x): x not in list" := by
  rfl

/-- C5 amended: when the event has a subscriber list and the callback is
not in it, unbind raises the ValueError of list.remove instead of
returning; the registry is only returned unchanged when the event has no
subscriber list at all. -/
theorem unbind_missing_callback_amended (evs : Events) (e : String) (c : Nat)
    (l : List Nat) (hl : eventsGet evs e = some l) (hc : c ∉ l) :
    unbind evs e (some c)
      = Except.error "ValueError: list.remove(x): x not in list" := by
  unfold unbind
  rw [hl]
  show Except.map _ (listRemove l c) = _
  rw [listRemove_not_mem l c hc]
  rfl

/-- C5 amended witness at a concrete registry. -/
theorem unbind_missing_callback_amended_witness :
    unbind [("click", [5, 7])] "click" (some 3)
      = Except.error "ValueError: list.remove(x): x not in list" :=
  unbind_missing_callback_amended [("click", [5, 7])] "click" 3 [5, 7]
    rfl (by decide)

/-- C6: set_status is idempotent with respect to event emission: two
calls in a row with the same value trigger auth:statusChange at most
once, and a call with the current status value changes nothing and
triggers nothing. -/
theorem set_status_idempotent (st : SDKState) (s : String) :
    (((set_status st s).2 ++ (set_status (set_status st s).1 s).2).filter
      (fun ev => ev.1 == "auth:statusChange")).length ≤ 1 ∧
    set_status st st.status = (st, []) := by
  constructor
  · by_cases h : st.status = s
    · simp [set_status, h]
    · simp [set_status, h]
  · simp [set_status]

/-- C7: a transport failure inside api, covering the network error from
requests.request and the decode failure from response.json, is caught at
the api boundary: the call returns the synthesized error dict, delivers
the same dict to the callback when one is given, and leaves the session
state untouched; nothing is raised past api. -/
theorem api_transport_failure_returns_error (st : SDKState) (p : String)
    (params0 : Option Params) (msg : String) (cb : Bool) :
    (api st p params0 (NetOutcome.fail msg) cb).result = ApiResult.errorStr msg ∧
    (api st p params0 (NetOutcome.fail msg) cb).cbCalls
      = (if cb then [ApiResult.errorStr msg] else []) ∧
    (api st p params0 (NetOutcome.fail msg) cb).state = st := by
  refine ⟨rfl, rfl, rfl⟩

/-- C4: logout on a client with a configured application id clears the
token and leaves the status unknown, whatever the deauthorization
request does: the clearing sits in a finally block, so it runs both when
the request succeeds and when it raises. -/
theorem logout_clears_token_and_status (st : SDKState) (net : NetCall) (cb : Bool)
    (h : pyTruthy st.app_id = true) :
    (logout st net cb).state.access_token = none ∧
    (logout st net cb).state.status = "unknown" := by
  unfold logout
  rw [h]
  simp only [Bool.not_true, Bool.false_eq_true, if_false]
  exact ⟨set_status_fst_access_token _ _, set_status_fst_status _ _⟩

/-- C4 witness: a connected client logging out while the deauthorization
request raises a connection error. -/
theorem logout_clears_token_and_status_witness :
    (logout authState (NetCall.failed "ConnectionError") true).state.access_token = none ∧
    (logout authState (NetCall.failed "ConnectionError") true).state.status = "unknown" :=
  logout_clears_token_and_status authState (NetCall.failed "ConnectionError") true rfl

/-- C8: without an application id the constructor raises ValueError for
every combination of the other parameters, and on a client state whose
application id is absent both connect and logout raise ValueError
immediately, leaving the state untouched. The ValueError realizes the
ConfigurationError category of the spec. -/
theorem missing_app_id_configuration_error (host : String) (cookies logging : Bool)
    (st : SDKState) (req : HttpRequest) (net : NetCall) (cb : Bool)
    (h : st.app_id = none) :
    geniInit none host cookies logging
      = Except.error "ValueError: Geni Python SDK requires an Application ID" ∧
    (connect st req cb).raised = some "ValueError: connect() called without an app id" ∧
    (connect st req cb).state = st ∧
    (connect st req cb).cbCalls = [] ∧
    (logout st net cb).raised = some "ValueError: logout() called without an app id" ∧
    (logout st net cb).state = st ∧
    (logout st net cb).cbCalled = false := by
  unfold geniInit connect logout
  rw [h]
  exact ⟨rfl, rfl, rfl, rfl, rfl, rfl, rfl⟩

/-- C8 witness: concrete parameter combination and a state with no
application id. -/
theorem missing_app_id_configuration_error_witness :
    geniInit none "https://example.test" true true
      = Except.error "ValueError: Geni Python SDK requires an Application ID" ∧
    (connect { freshState with app_id := none }
        { command := "GET", path := "/" } true).raised
      = some "ValueError: connect() called without an app id" ∧
    (connect { freshState with app_id := none }
        { command := "GET", path := "/" } true).state
      = { freshState with app_id := none } ∧
    (connect { freshState with app_id := none }
        { command := "GET", path := "/" } true).cbCalls = [] ∧
    (logout { freshState with app_id := none } NetCall.ok true).raised
      = some "ValueError: logout() called without an app id" ∧
    (logout { freshState with app_id := none } NetCall.ok true).state
      = { freshState with app_id := none } ∧
    (logout { freshState with app_id := none } NetCall.ok true).cbCalled = false :=
  missing_app_id_configuration_error "https://example.test" true true
    { freshState with app_id := none } { command := "GET", path := "/" }
    NetCall.ok true rfl

/-- C9: connect on a client already holding a token short-circuits: it
delivers the authorized dict with the existing token to the callback,
binds no listener, opens no browser, fires no event, raises nothing and
leaves the state exactly as it was. The application id hypothesis
reflects the constructor guarantee that every client has one. -/
theorem connect_short_circuit (st : SDKState) (req : HttpRequest) (cb : Bool)
    (happ : pyTruthy st.app_id = true) (htok : pyTruthy st.access_token = true) :
    (connect st req cb).state = st ∧
    (connect st req cb).boundListener = false ∧
    (connect st req cb).openedBrowser = false ∧
    (connect st req cb).fired = [] ∧
    (connect st req cb).raised = none ∧
    (connect st req cb).cbCalls
      = (if cb then [OAuthResp.authorized (st.access_token.getD "")] else []) := by
  unfold connect
  rw [happ, htok]
  exact ⟨rfl, rfl, rfl, rfl, rfl, rfl⟩

/-- C9 witness: second connect on a client holding the token T. -/
theorem connect_short_circuit_witness :
    (connect authState { command := "GET", path := "/?access_token=OTHER" } true).state
      = authState ∧
    (connect authState { command := "GET", path := "/?access_token=OTHER" } true).boundListener
      = false ∧
    (connect authState { command := "GET", path := "/?access_token=OTHER" } true).openedBrowser
      = false ∧
    (connect authState { command := "GET", path := "/?access_token=OTHER" } true).fired = [] ∧
    (connect authState { command := "GET", path := "/?access_token=OTHER" } true).raised
      = none ∧
    (connect authState { command := "GET", path := "/?access_token=OTHER" } true).cbCalls
      = (if true then [OAuthResp.authorized (authState.access_token.getD "")] else []) :=
  connect_short_circuit authState { command := "GET", path := "/?access_token=OTHER" }
    true rfl rfl

/-- Popping a key leaves no binding for it. -/
theorem dictGet_dictPop_self (p : Params) (k : String) :
    dictGet (dictPop p k).2 k = none := by
  unfold dictPop
  induction p with
  | nil => rfl
  | cons kv t ih =>
    by_cases hk : kv.1 = k
    · simpa [List.filter, hk] using ih
    · simp only [List.filter_cons]
      have hb : (kv.1 != k) = true := by simp [hk]
      rw [hb]
      simp only [if_true]
      unfold dictGet
      have hbe : (kv.1 == k) = false := by simp [hk]
      rw [hbe]
      simpa using ih

/-- Mapping the replacement at a bound key yields the new binding. -/
theorem dictGet_map_set_self (l : Params) (k v : String)
    (h : l.any (fun kv => kv.1 == k) = true) :
    dictGet (l.map (fun kv => if kv.1 == k then (k, v) else kv)) k = some v := by
  induction l with
  | nil => cases h
  | cons kv t ih =>
    rw [List.map_cons]
    unfold dictGet
    by_cases hk : kv.1 = k
    · simp [hk]
    · have ht : t.any (fun kv => kv.1 == k) = true := by
        simpa [List.any_cons, hk] using h
      simpa [hk] using ih ht

/-- Appending a fresh binding makes it the one found for its key. -/
theorem dictGet_append_self (l : Params) (k v : String)
    (h : l.any (fun kv => kv.1 == k) = false) :
    dictGet (l ++ [(k, v)]) k = some v := by
  induction l with
  | nil => simp [dictGet]
  | cons kv t ih =>
    have hk : ¬(kv.1 = k) := by
      intro he
      simp [List.any_cons, he] at h
    have ht : t.any (fun kv => kv.1 == k) = false := by
      simpa [List.any_cons, hk] using h
    rw [List.cons_append]
    unfold dictGet
    simpa [hk] using ih ht

/-- Setting a key binds it to the new value. -/
theorem dictGet_dictSet_self (p : Params) (k v : String) :
    dictGet (dictSet p k v) k = some v := by
  unfold dictSet
  by_cases h : p.any (fun kv => kv.1 == k)
  · rw [if_pos h]
    exact dictGet_map_set_self p k v h
  · rw [if_neg h]
    exact dictGet_append_self p k v (Bool.eq_false_iff.mpr h)

/-- Mapping the replacement at one key does not touch another key. -/
theorem dictGet_map_set_other (l : Params) (k v k2 : String) (h : k2 ≠ k) :
    dictGet (l.map (fun kv => if kv.1 == k then (k, v) else kv)) k2 = dictGet l k2 := by
  induction l with
  | nil => rfl
  | cons kv t ih =>
    rw [List.map_cons]
    unfold dictGet
    by_cases hk : kv.1 = k
    · have hne : ¬(k = k2) := fun he => h he.symm
      have hne2 : ¬(kv.1 = k2) := by rw [hk]; exact hne
      simpa [hk, hne, hne2] using ih
    · by_cases hk2 : kv.1 = k2
      · simp [hk, hk2, h]
      · simpa [hk, hk2] using ih

/-- Appending a binding for one key does not touch another key. -/
theorem dictGet_append_other (l : Params) (k v k2 : String) (h : k2 ≠ k) :
    dictGet (l ++ [(k, v)]) k2 = dictGet l k2 := by
  induction l with
  | nil =>
    have hne : ¬(k = k2) := fun he => h he.symm
    simp [dictGet, hne]
  | cons kv t ih =>
    rw [List.cons_append]
    unfold dictGet
    by_cases hk2 : kv.1 = k2
    · simp [hk2]
    · simpa [hk2] using ih

/-- Setting one key does not touch the binding of another. -/
theorem dictGet_dictSet_other (p : Params) (k v k2 : String) (h : k2 ≠ k) :
    dictGet (dictSet p k v) k2 = dictGet p k2 := by
  unfold dictSet
  by_cases hp : p.any (fun kv => kv.1 == k)
  · rw [if_pos hp]
    exact dictGet_map_set_other p k v k2 h
  · rw [if_neg hp]
    exact dictGet_append_other p k v k2 h

/-- C10: api mutates the caller supplied params dict in place: for a
nonempty dict, after the call the method key is gone from the callers
dict, and when a token is held the access_token key has been written
into it with the stored token as its value, for every network outcome. -/
theorem api_mutates_caller_params (st : SDKState) (p : String) (ps : Params)
    (net : NetOutcome) (cb : Bool) (hp : ps ≠ []) :
    dictGet (((api st p (some ps) net cb).callerParams).getD []) "method" = none ∧
    (pyTruthy st.access_token = true →
      dictGet (((api st p (some ps) net cb).callerParams).getD []) "access_token"
        = st.access_token) := by
  have hne : ps.isEmpty = false := by
    cases ps with
    | nil => exact absurd rfl hp
    | cons a t => rfl
  have hcp : apiCallerParams st (some ps) = some (apiFinalParams st ps) := by
    show (if ps.isEmpty = true then some ps else some (apiFinalParams st ps))
      = some (apiFinalParams st ps)
    rw [hne]
    simp
  rw [api_callerParams_eq, hcp]
  simp only [Option.getD_some]
  unfold apiFinalParams
  constructor
  · by_cases ht : pyTruthy st.access_token = true
    · rw [if_pos ht]
      rw [dictGet_dictSet_other _ _ _ _ (by decide)]
      exact dictGet_dictPop_self ps "method"
    · rw [if_neg ht]
      exact dictGet_dictPop_self ps "method"
  · intro ht
    rw [if_pos ht]
    rw [dictGet_dictSet_self]
    cases hcase : st.access_token with
    | none => rw [hcase] at ht; cases ht
    | some t => rfl

/-- C10 witness: a get call with a params dict holding a method key, on
a client holding the token T. -/
theorem api_mutates_caller_params_witness :
    dictGet (((api authState "/profile" (some [("method", "POST"), ("x", "1")])
        (NetOutcome.ok { errField := none }) false).callerParams).getD []) "method"
      = none ∧
    (pyTruthy authState.access_token = true →
      dictGet (((api authState "/profile" (some [("method", "POST"), ("x", "1")])
          (NetOutcome.ok { errField := none }) false).callerParams).getD []) "access_token"
        = authState.access_token) :=
  api_mutates_caller_params authState "/profile" [("method", "POST"), ("x", "1")]
    (NetOutcome.ok { errField := none }) false (by decide)

/-- C3 counterexample: on a client holding the token T, an api response
whose error type is OAuthException does clear the token and demote the
status to unauthorized, but a subsequent get_status call reports the
status unknown, not unauthorized: with the token gone, get_status skips
the liveness check, overwrites the status with unknown and returns it,
so the demoted unauthorized status is not observable through get_status
as the claim states. -/
theorem api_demotion_not_observable_counterexample :
    (api authState "/user" none (NetOutcome.ok oauthErrData) false).state.status
      = "unauthorized" ∧
    (get_status (api authState "/user" none (NetOutcome.ok oauthErrData) false).state
        (NetOutcome.ok { errField := none }) false).status = "unknown" ∧
    (get_status (api authState "/user" none (NetOutcome.ok oauthErrData) false).state
        (NetOutcome.ok { errField := none }) false).state.status = "unknown" ∧
    "unknown" ≠ "unauthorized" := by
  refine ⟨rfl, rfl, rfl, by decide⟩

/-- C3 amended: an api call whose decoded body carries an error dict of
type OAuthException clears the stored token and sets the status to
unauthorized via set_status; a subsequent get_status call then reports a
non-authorized result, namely status unknown with no access token,
resetting the stored status to unknown as well. -/
theorem api_oauth_exception_demotes (st : SDKState) (p : String)
    (params0 : Option Params) (b cb : Bool) (d : ApiData) (net2 : NetOutcome)
    (hd : d.errField = some (PyErrVal.pdict (some "OAuthException") b)) :
    (api st p params0 (NetOutcome.ok d) cb).state.access_token = none ∧
    (api st p params0 (NetOutcome.ok d) cb).state.status = "unauthorized" ∧
    (get_status (api st p params0 (NetOutcome.ok d) cb).state net2 false).status
      = "unknown" ∧
    (get_status (api st p params0 (NetOutcome.ok d) cb).state net2 false).access_token
      = none := by
  have hbody : apiTry st (NetOutcome.ok d) cb
      = Except.ok ((set_status { st with access_token := none } "unauthorized").1, d,
          (set_status { st with access_token := none } "unauthorized").2,
          if cb then [ApiResult.data d] else []) := by
    unfold apiTry
    cases d with
    | mk ef =>
      change ef = some (PyErrVal.pdict (some "OAuthException") b) at hd
      subst hd
      rfl
  have hstate : (api st p params0 (NetOutcome.ok d) cb).state
      = (set_status { st with access_token := none } "unauthorized").1 := by
    unfold api
    rw [hbody]
  have htok : (api st p params0 (NetOutcome.ok d) cb).state.access_token = none := by
    rw [hstate, set_status_fst_access_token]
  have hnottruthy :
      pyTruthy (api st p params0 (NetOutcome.ok d) cb).state.access_token = false := by
    rw [htok]
    rfl
  refine ⟨htok, ?_, ?_, ?_⟩
  · rw [hstate, set_status_fst_status]
  · unfold get_status
    rw [hnottruthy]
    rfl
  · unfold get_status
    rw [hnottruthy]
    rfl

/-- C3 amended witness: concrete demotion on a client holding the token
T, followed by a get_status call. -/
theorem api_oauth_exception_demotes_witness :
    (api authState "/profile-1" (some [("x", "1")]) (NetOutcome.ok oauthErrData)
        true).state.access_token = none ∧
    (api authState "/profile-1" (some [("x", "1")]) (NetOutcome.ok oauthErrData)
        true).state.status = "unauthorized" ∧
    (get_status (api authState "/profile-1" (some [("x", "1")])
        (NetOutcome.ok oauthErrData) true).state (NetOutcome.fail "unused") false).status
      = "unknown" ∧
    (get_status (api authState "/profile-1" (some [("x", "1")])
        (NetOutcome.ok oauthErrData) true).state (NetOutcome.fail "unused") false).access_token
      = none :=
  api_oauth_exception_demotes authState "/profile-1" (some [("x", "1")]) false true
    oauthErrData (NetOutcome.fail "unused") rfl

/-- One connect call preserves the session invariant. -/
theorem connect_preserves (st : SDKState) (req : HttpRequest) (cb : Bool)
    (h : sessionInvariant st) : sessionInvariant (connect st req cb).state := by
  unfold sessionInvariant connect
  split
  · exact h
  · split
    · exact h
    · next h1 h2 =>
      dsimp only
      generalize (handleOneRequest req).getD OAuthResp.unknownDefault = resp
      cases resp with
      | authorized t =>
        intro _
        exact set_status_fst_status _ _
      | unknownErr =>
        intro htok
        rw [set_status_fst_access_token] at htok
        exact absurd htok h2
      | unknownDefault =>
        intro htok
        rw [set_status_fst_access_token] at htok
        exact absurd htok h2

/-- One api call preserves the session invariant. -/
theorem api_preserves (st : SDKState) (p : String) (params0 : Option Params)
    (net : NetOutcome) (cb : Bool) (h : sessionInvariant st) :
    sessionInvariant (api st p params0 net cb).state := by
  unfold api apiTry
  cases net with
  | fail msg => exact h
  | ok d =>
    cases d with
    | mk ef =>
      cases ef with
      | none => exact h
      | some v =>
        cases v with
        | nonDict t => exact h
        | pdict etype hok =>
          by_cases he : etype = some "OAuthException"
          · subst he
            show pyTruthy (set_status { st with access_token := none }
                "unauthorized").1.access_token = true →
              (set_status { st with access_token := none }
                "unauthorized").1.status = "authorized"
            intro htok
            rw [set_status_fst_access_token] at htok
            simp [pyTruthy] at htok
          · have hne : (etype == some "OAuthException") = false := by
              simp [he]
            dsimp only
            rw [hne]
            exact h

/-- One get_status call preserves the session invariant. -/
theorem get_status_preserves (st : SDKState) (net : NetOutcome) (cb : Bool)
    (h : sessionInvariant st) : sessionInvariant (get_status st net cb).state := by
  unfold sessionInvariant get_status
  split
  · dsimp only
    split
    · intro _
      exact set_status_fst_status _ _
    · intro htok
      rw [set_status_fst_access_token] at htok
      simp [pyTruthy] at htok
  · next hnt =>
    intro htok
    rw [set_status_fst_access_token] at htok
    exact absurd htok hnt

/-- One logout call preserves the session invariant. -/
theorem logout_preserves (st : SDKState) (net : NetCall) (cb : Bool)
    (h : sessionInvariant st) : sessionInvariant (logout st net cb).state := by
  unfold sessionInvariant logout
  split
  · exact h
  · intro htok
    rw [set_status_fst_access_token] at htok
    simp [pyTruthy] at htok

/-- Every public operation preserves the session invariant. -/
theorem step_preserves (st : SDKState) (o : SDKOp) (h : sessionInvariant st) :
    sessionInvariant (step st o) := by
  cases o with
  | opConnect req => exact connect_preserves st req false h
  | opGetStatus net => exact get_status_preserves st net false h
  | opLogout net => exact logout_preserves st net false h
  | opApi p params0 net => exact api_preserves st p params0 net false h

/-- Every sequence of public operations preserves the session
invariant. -/
theorem runOps_preserves (ops : List SDKOp) (st : SDKState)
    (h : sessionInvariant st) : sessionInvariant (runOps st ops) := by
  induction ops generalizing st with
  | nil => exact h
  | cons o t ih => exact ih (step st o) (step_preserves st o h)

/-- C2: starting from a freshly constructed client, after every prefix
of every sequence of public operations the session invariant holds: the
stored access token is non-empty only when the status is authorized. -/
theorem session_invariant_holds (a : Option String) (host : String)
    (cookies logging : Bool) (st0 : SDKState)
    (hinit : geniInit a host cookies logging = Except.ok st0)
    (ops : List SDKOp) (n : Nat) :
    sessionInvariant (runOps st0 (ops.take n)) := by
  have h0 : sessionInvariant st0 := by
    unfold geniInit at hinit
    split at hinit
    · cases hinit
      intro htok
      cases htok
    · cases hinit
  exact runOps_preserves (ops.take n) st0 h0

/-- C2 witness: a fresh client running a handshake, a demoting api call
and a logout. -/
theorem session_invariant_holds_witness :
    sessionInvariant (runOps freshState
      ([SDKOp.opConnect { command := "GET", path := "/?access_token=XYZ" },
        SDKOp.opApi "/user" none (NetOutcome.ok oauthErrData),
        SDKOp.opLogout (NetCall.failed "ConnectionError")].take 3)) :=
  session_invariant_holds (some "A") "https://www.geni.com" false false
    freshState rfl
    [SDKOp.opConnect { command := "GET", path := "/?access_token=XYZ" },
     SDKOp.opApi "/user" none (NetOutcome.ok oauthErrData),
     SDKOp.opLogout (NetCall.failed "ConnectionError")] 3

end GeniWrapper
